import Mathlib

/-!
Shallow embedding of the feature-flag subsystem of the Twitch-Bots repository
(`src/feature_flags/`): the permission model (`permission_types.py`), the shared
storage engine (`shared_storage.py`) and the per-module manager facade
(`feature_flags_manager.py`).

Python dictionaries are modelled as association lists (first binding wins on
lookup, as `dict.get`); Python `None` is the `PyValue.none` constructor, so that
`dict.get(k)` returning `None` for an absent key is mirrored by `getD .none`.
Observer callbacks are modelled by an identifier plus a flag saying whether the
callback raises when invoked; an invocation trace records each synchronous
callback call that the storage performs.  File contents are modelled by a
`FileState`: absent, unparseable JSON, parseable JSON without a `flags` map, or
a structured document with a `flags` map.  Time is a natural-number tick count
used only for the reload debounce check.
-/

namespace TwitchBots

/-- JSON-scalar values handled by the flag store; `none` is Python `None`. -/
inductive PyValue : Type
  | none : PyValue
  | bool : Bool → PyValue
  | int : Int → PyValue
  | str : String → PyValue
deriving DecidableEq, Repr

/-- Python `==` on the modelled values: `True == 1`, `False == 0`, otherwise
structural equality.  Used where the source compares `old_value != value`. -/
def pyEq : PyValue → PyValue → Bool
  | .bool a, .bool b => a == b
  | .bool a, .int n => (if a then (1 : Int) else 0) == n
  | .int n, .bool a => n == (if a then (1 : Int) else 0)
  | .int m, .int n => m == n
  | .str s, .str t => s == t
  | .none, .none => true
  | _, _ => false

/-- `permission_types.PermissionLevel`: the access level for non-owner modules. -/
inductive PermissionLevel : Type
  | READ_ONLY
  | READ_WRITE
  | OWNER_ONLY
deriving DecidableEq, Repr

/-- `permission_types.FlagOwnership`: owner and the access level for non-owners. -/
structure FlagOwnership : Type where
  owner_module : String
  access_permissions : PermissionLevel
deriving DecidableEq, Repr

/-- `permission_types.FlagDeclaration`: a module-local record of intent.
The `flag` field of the Python dataclass is represented by the flag's name. -/
structure FlagDeclaration : Type where
  flagName : String
  permission : PermissionLevel
  default_value : PyValue
  description : String
deriving DecidableEq, Repr

/-- An observer callback: an identity plus whether invoking it raises. -/
structure Callback : Type where
  id : Nat
  raises : Bool
deriving DecidableEq, Repr

/-- One synchronous observer invocation `callback(flag_name, old_value, new_value)`. -/
structure CallEvent : Type where
  cbId : Nat
  flagName : String
  oldValue : PyValue
  newValue : PyValue
deriving DecidableEq, Repr

/-- Lookup in an association list, as Python `dict.get(key)` (without default). -/
def alistGet {α : Type} (l : List (String × α)) (k : String) : Option α :=
  (l.find? (fun p => p.1 == k)).map Prod.snd

/-- Update/insert in an association list, as Python `d[key] = v`. -/
def alistSet {α : Type} (l : List (String × α)) (k : String) (v : α) :
    List (String × α) :=
  if (l.find? (fun p => p.1 == k)).isSome then
    l.map (fun p => if p.1 == k then (k, v) else p)
  else
    l ++ [(k, v)]

/-- Delete from an association list, as Python `del d[key]`. -/
def alistRemove {α : Type} (l : List (String × α)) (k : String) :
    List (String × α) :=
  l.filter (fun p => !(p.1 == k))

/-- One flag's entry in the structured config document, as produced by
`SharedFlagStorage.write_config`: a `value`, an optional `description`, and an
optional ownership pair (`owner_module` + `access_permissions`, written and
read together). -/
structure FlagEntry : Type where
  value : PyValue
  description : Option String
  ownership : Option FlagOwnership
deriving DecidableEq, Repr

/-- One flag's raw data in the config file: either a structured entry (a dict
with a `value` key) or a legacy bare value. -/
inductive FileFlagData : Type
  | entry : FlagEntry → FileFlagData
  | bare : PyValue → FileFlagData
deriving DecidableEq, Repr

/-- The config file as seen by `_reload_config`: absent, unparseable JSON,
valid JSON whose top level has no `flags` map, or a structured document. -/
inductive FileState : Type
  | absent
  | corrupt
  | noFlags
  | withFlags : List (String × FileFlagData) → FileState
deriving DecidableEq, Repr

/-- `shared_storage.SharedFlagStorage`: cache, descriptions, ownership
registry, observer lists, manager use-count, debounce bookkeeping, and whether
the file watcher is running. -/
structure StorageState : Type where
  cache : List (String × PyValue)
  descriptions : List (String × String)
  ownership : List (String × FlagOwnership)
  observers : List (String × List Callback)
  managerCount : Int
  lastReload : Nat
  debounce : Nat
  watcherRunning : Bool
deriving DecidableEq, Repr

/-- Invoking a callback: raises iff the callback's `raises` flag is set. -/
def invokeCallback (cb : Callback) : Except String Unit :=
  if cb.raises then .error "callback error" else .ok ()

/-- `SharedFlagStorage._notify_observer`: call every callback registered for
the flag; each call is wrapped in try/except, so the loop continues and the
outcome of the callback is discarded.  Returns the invocation trace. -/
def notifyObserver (st : StorageState) (flagName : String)
    (oldValue newValue : PyValue) : List CallEvent :=
  match alistGet st.observers flagName with
  | Option.none => []
  | some cbs =>
      cbs.map (fun cb =>
        match invokeCallback cb with
        | _ => { cbId := cb.id, flagName := flagName,
                 oldValue := oldValue, newValue := newValue })

/-- `SharedFlagStorage.get_flag_value`: `self._cache.get(flag_name)` — returns
Python `None` when the key is absent. -/
def StorageState.get_flag_value (st : StorageState) (flagName : String) : PyValue :=
  (alistGet st.cache flagName).getD .none

/-- `SharedFlagStorage.set_flag_value`: record the old value, mutate the cache,
and when the value changed (Python `!=`) synchronously notify the observers
before returning.  The second component is the invocation trace. -/
def StorageState.set_flag_value (st : StorageState) (flagName : String)
    (value : PyValue) : StorageState × List CallEvent :=
  let old_value := (alistGet st.cache flagName).getD .none
  let st' := { st with cache := alistSet st.cache flagName value }
  if pyEq old_value value then (st', [])
  else (st', notifyObserver st' flagName old_value value)

/-- `SharedFlagStorage.set_flag_description`. -/
def StorageState.set_flag_description (st : StorageState) (flagName : String)
    (description : String) : StorageState :=
  { st with descriptions := alistSet st.descriptions flagName description }

/-- `SharedFlagStorage.set_ownership_info`. -/
def StorageState.set_ownership_info (st : StorageState) (flagName : String)
    (ow : FlagOwnership) : StorageState :=
  { st with ownership := alistSet st.ownership flagName ow }

/-- `SharedFlagStorage.get_ownership_info`: `self._ownership_registry.get(flag_name)`. -/
def StorageState.get_ownership_info (st : StorageState) (flagName : String) :
    Option FlagOwnership :=
  alistGet st.ownership flagName

/-- `SharedFlagStorage.add_observer`: append the callback to the flag's list. -/
def StorageState.add_observer (st : StorageState) (flagName : String)
    (cb : Callback) : StorageState :=
  { st with observers :=
      alistSet st.observers flagName ((alistGet st.observers flagName).getD [] ++ [cb]) }

/-- `SharedFlagStorage.add_manager`. -/
def StorageState.add_manager (st : StorageState) : StorageState :=
  { st with managerCount := st.managerCount + 1 }

/-- `SharedFlagStorage._shutdown`: stop and join the file watcher. -/
def StorageState.shutdown (st : StorageState) : StorageState :=
  { st with watcherRunning := false }

/-- `SharedFlagStorage.remove_manager`: decrement the use-count and shut down
when it reaches zero (or below). -/
def StorageState.remove_manager (st : StorageState) : StorageState :=
  let st' := { st with managerCount := st.managerCount - 1 }
  if st'.managerCount ≤ 0 then st'.shutdown else st'

/-- The per-flag entry list built by the loop of
`SharedFlagStorage.write_config`: per flag `{value, description?,
owner_module? + access_permissions?}`.  A description is written only when
present and non-empty (Python truthiness); the ownership pair only when
present. -/
def writeEntries (flags : List (String × PyValue))
    (descriptions : List (String × String))
    (ownership_info : List (String × FlagOwnership)) :
    List (String × FileFlagData) :=
  flags.map (fun p =>
    (p.1, .entry {
      value := p.2
      description :=
        match alistGet descriptions p.1 with
        | some d => if d = "" then Option.none else some d
        | Option.none => Option.none
      ownership := alistGet ownership_info p.1 }))

/-- `SharedFlagStorage.write_config`: consolidate the three maps into the
structured document and write it (atomically) as the new file contents. -/
def write_config (flags : List (String × PyValue))
    (descriptions : List (String × String))
    (ownership_info : List (String × FlagOwnership)) : FileState :=
  .withFlags (writeEntries flags descriptions ownership_info)

/-- One step of the `for flag_name, flag_data in config_data["flags"].items()`
loop of `_reload_config`: a structured entry contributes its value, optional
description and optional ownership; a malformed entry contributes the whole
datum as the value. -/
def loadEntry
    (acc : List (String × PyValue) × List (String × String) × List (String × FlagOwnership))
    (p : String × FileFlagData) :
    List (String × PyValue) × List (String × String) × List (String × FlagOwnership) :=
  match p.2 with
  | .entry e =>
      (alistSet acc.1 p.1 e.value,
       (match e.description with
        | some d => alistSet acc.2.1 p.1 d
        | Option.none => acc.2.1),
       (match e.ownership with
        | some ow => alistSet acc.2.2 p.1 ow
        | Option.none => acc.2.2))
  | .bare v => (alistSet acc.1 p.1 v, acc.2.1, acc.2.2)

/-- The rebuilt `(cache, descriptions, ownership)` of `_reload_config`,
starting from the emptied maps and folding over the file's `flags` items. -/
def loadFlags (entries : List (String × FileFlagData)) :
    List (String × PyValue) × List (String × String) × List (String × FlagOwnership) :=
  entries.foldl loadEntry ([], [], [])

/-- `SharedFlagStorage._notify_observers(old_config, new_config)`: for every
flag with registered observers, compare `old.get(name)` with `new.get(name)`
and, on difference, invoke each callback (each wrapped in try/except). -/
def notifyObserversDiff (observers : List (String × List Callback))
    (old_config new_config : List (String × PyValue)) : List CallEvent :=
  observers.foldr (fun p acc =>
    let old_value := (alistGet old_config p.1).getD .none
    let new_value := (alistGet new_config p.1).getD .none
    (if pyEq old_value new_value then []
     else p.2.map (fun cb =>
       match invokeCallback cb with
       | _ => { cbId := cb.id, flagName := p.1,
                oldValue := old_value, newValue := new_value })) ++ acc) []

/-- `SharedFlagStorage._reload_config` at time `now`: drop the request inside
the debounce window; otherwise stamp `lastReload` and (inside try/except)
return early if the file is absent, silently absorb a JSON parse error, rebuild
the three maps from a `flags` map, or reset them to empty when the parsed top
level has no `flags` key.  Observers fire on the before/after cache diff. -/
def reload_config (st : StorageState) (file : FileState) (now : Nat) :
    StorageState × List CallEvent :=
  if now - st.lastReload < st.debounce then (st, [])
  else
    let st0 := { st with lastReload := now }
    match file with
    | .absent => (st0, [])
    | .corrupt => (st0, [])
    | .noFlags =>
        let old_cache := st0.cache
        let st1 := { st0 with cache := [], descriptions := [], ownership := [] }
        (st1, notifyObserversDiff st1.observers old_cache st1.cache)
    | .withFlags entries =>
        let old_cache := st0.cache
        let maps := loadFlags entries
        let st1 := { st0 with cache := maps.1, descriptions := maps.2.1,
                              ownership := maps.2.2 }
        (st1, notifyObserversDiff st1.observers old_cache st1.cache)

/-- `SharedFlagStorage.__init__`: empty maps, zero managers, `_last_reload = 0`,
then an initial `_reload_config()` and the watcher start. -/
def freshStorage (debounce : Nat) (file : FileState) (now : Nat) : StorageState :=
  let st0 : StorageState :=
    { cache := [], descriptions := [], ownership := [], observers := [],
      managerCount := 0, lastReload := 0, debounce := debounce,
      watcherRunning := false }
  let st1 := (reload_config st0 file now).1
  { st1 with watcherRunning := true }

/-- `feature_flags_manager.FeatureFlagManager`'s module-specific state:
the module name and the flags this manager has declared or used. -/
structure ManagerState : Type where
  module_name : String
  declared_flags : List (String × FlagDeclaration)
deriving DecidableEq, Repr

/-- `FeatureFlagManager._persist_config`: write the storage's current cache,
descriptions and ownership registry to the file. -/
def persist_config (st : StorageState) : FileState :=
  write_config st.cache st.descriptions st.ownership

/-- `FeatureFlagManager.declare_flag`: raise if another module owns the flag;
otherwise (re)claim ownership, record a full-access local declaration, seed the
store's value with `default_value` only when `get_flag_value` is `None`, and
persist the full config.  Returns the updated manager, storage, the written
file, and the observer invocation trace. -/
def declare_flag (m : ManagerState) (st : StorageState) (flagName : String)
    (access_permissions : PermissionLevel) (default_value : PyValue)
    (description : String) :
    Except String (ManagerState × StorageState × FileState × List CallEvent) :=
  match st.get_ownership_info flagName with
  | some ow =>
      if ow.owner_module ≠ m.module_name then
        .error ("Flag is already owned by module " ++ ow.owner_module)
      else
        declareBody m st flagName access_permissions default_value description
  | Option.none =>
      declareBody m st flagName access_permissions default_value description
where
  /-- The body of `declare_flag` after the ownership-conflict check. -/
  declareBody (m : ManagerState) (st : StorageState) (flagName : String)
      (access_permissions : PermissionLevel) (default_value : PyValue)
      (description : String) :
      Except String (ManagerState × StorageState × FileState × List CallEvent) :=
    let st1 := st.set_ownership_info flagName
      { owner_module := m.module_name, access_permissions := access_permissions }
    let decl : FlagDeclaration :=
      { flagName := flagName, permission := .OWNER_ONLY,
        default_value := default_value, description := description }
    let m' := { m with declared_flags := alistSet m.declared_flags flagName decl }
    let seeded :=
      if st1.get_flag_value flagName = .none then
        let p := st1.set_flag_value flagName default_value
        (p.1.set_flag_description flagName description, p.2)
      else (st1, [])
    .ok (m', seeded.1, persist_config seeded.1, seeded.2)

/-- `FeatureFlagManager.use_flag`: raise if the flag has no ownership record;
grant owner-level access to the owner, the recorded access level to others,
raising for `OWNER_ONLY`; record the local declaration (default `None`,
description from the store). -/
def use_flag (m : ManagerState) (st : StorageState) (flagName : String) :
    Except String ManagerState :=
  match st.get_ownership_info flagName with
  | Option.none =>
      .error ("Flag " ++ flagName ++ " does not exist or has not been declared")
  | some ow =>
      if ow.owner_module = m.module_name then
        .ok (useRecord m st flagName .OWNER_ONLY)
      else if ow.access_permissions = .OWNER_ONLY then
        .error ("Flag " ++ flagName ++ " is owned with OWNER_ONLY access")
      else
        .ok (useRecord m st flagName ow.access_permissions)
where
  /-- Recording the usage declaration at the end of `use_flag`. -/
  useRecord (m : ManagerState) (st : StorageState) (flagName : String)
      (permission : PermissionLevel) : ManagerState :=
    let decl : FlagDeclaration :=
      { flagName := flagName, permission := permission,
        default_value := .none,
        description := (alistGet st.descriptions flagName).getD "" }
    { m with declared_flags := alistSet m.declared_flags flagName decl }

/-- `FeatureFlagManager.get_flag`: raise if the flag was not declared/used by
this manager; otherwise take the store value and, when it `is None`, fall back
to `declaration.default_value if default is None else default`. -/
def get_flag (m : ManagerState) (st : StorageState) (flagName : String)
    (default : PyValue) : Except String PyValue :=
  match alistGet m.declared_flags flagName with
  | Option.none =>
      .error ("Flag " ++ flagName ++ " must be declared or used before access")
  | some declaration =>
      let value := st.get_flag_value flagName
      let value :=
        if value = .none then
          if default = .none then declaration.default_value else default
        else value
      .ok value

/-- `FeatureFlagManager.set_flag`: raise if not declared/used, if the local
declaration is `READ_ONLY`, or if the live ownership record denies writes to a
non-owner; otherwise update the store and persist the full config. -/
def set_flag (m : ManagerState) (st : StorageState) (flagName : String)
    (value : PyValue) :
    Except String (StorageState × FileState × List CallEvent) :=
  match alistGet m.declared_flags flagName with
  | Option.none =>
      .error ("Flag " ++ flagName ++ " must be declared or used before modification")
  | some declaration =>
      if declaration.permission = .READ_ONLY then
        .error ("Module " ++ m.module_name ++ " has read-only access")
      else
        match st.get_ownership_info flagName with
        | some ow =>
            if ow.owner_module ≠ m.module_name then
              if ow.access_permissions = .OWNER_ONLY then
                .error ("Flag is owned with OWNER_ONLY access")
              else if ow.access_permissions = .READ_ONLY then
                .error ("Module " ++ m.module_name ++ " has read-only access to owned flag")
              else
                .ok (setBody st flagName value)
            else
              .ok (setBody st flagName value)
        | Option.none => .ok (setBody st flagName value)
where
  /-- The mutation + persistence tail of `set_flag`. -/
  setBody (st : StorageState) (flagName : String) (value : PyValue) :
      StorageState × FileState × List CallEvent :=
    let p := st.set_flag_value flagName value
    (p.1, persist_config p.1, p.2)

/-- The process-wide `_shared_storages` registry of `shared_storage.py`. -/
structure GlobalRegistry : Type where
  storages : List (String × StorageState)
deriving DecidableEq, Repr

/-- `shared_storage.get_shared_storage`: return the registered storage for the
path, constructing (and registering) a fresh one only when the path is absent
from the registry. -/
def get_shared_storage (g : GlobalRegistry) (path : String) (debounce : Nat)
    (file : FileState) (now : Nat) : GlobalRegistry × StorageState :=
  match alistGet g.storages path with
  | some st => (g, st)
  | Option.none =>
      let st := freshStorage debounce file now
      ({ storages := alistSet g.storages path st }, st)

/-- `FeatureFlagManager.shutdown` seen through the global registry: the
manager's storage — still referenced by the registry — has `remove_manager`
applied in place.  The registry entry itself is not touched by the source. -/
def registry_remove_manager (g : GlobalRegistry) (path : String) : GlobalRegistry :=
  match alistGet g.storages path with
  | some st => { storages := alistSet g.storages path st.remove_manager }
  | Option.none => g

/-! ### Association-list lemmas -/

theorem find?_map_replace {α : Type} (l : List (String × α)) (k : String) (v : α) :
    ((l.map (fun p => if p.1 == k then (k, v) else p)).find? (fun p => p.1 == k))
      = if (l.find? (fun p => p.1 == k)).isSome then some (k, v) else Option.none := by
  induction l with
  | nil => simp
  | cons p t ih =>
      by_cases h : p.1 = k
      · rw [List.map_cons, List.find?_cons_of_pos _ (by simp [h]),
            List.find?_cons_of_pos _ (by simp [h])]
        simp [h]
      · rw [List.map_cons, List.find?_cons_of_neg _ (by simp [h]),
            List.find?_cons_of_neg _ (by simp [h])]
        exact ih

theorem find?_map_replace_ne {α : Type} (l : List (String × α)) (k k' : String)
    (v : α) (h : k' ≠ k) :
    ((l.map (fun p => if p.1 == k then (k, v) else p)).find? (fun p => p.1 == k'))
      = l.find? (fun p => p.1 == k') := by
  induction l with
  | nil => simp
  | cons p t ih =>
      by_cases hp : p.1 = k
      · rw [List.map_cons, List.find?_cons_of_neg _ (by simp [hp, Ne.symm h]),
            List.find?_cons_of_neg _ (by simp [hp, Ne.symm h])]
        exact ih
      · by_cases hp' : p.1 = k'
        · rw [List.map_cons, List.find?_cons_of_pos _ (by simp [hp, hp', h]),
              List.find?_cons_of_pos _ (by simp [hp'])]
          simp [hp]
        · rw [List.map_cons, List.find?_cons_of_neg _ (by simp [hp, hp']),
              List.find?_cons_of_neg _ (by simp [hp'])]
          exact ih

theorem alistGet_alistSet_self {α : Type} (l : List (String × α)) (k : String)
    (v : α) : alistGet (alistSet l k v) k = some v := by
  unfold alistGet alistSet
  by_cases h : (l.find? (fun p => p.1 == k)).isSome
  · rw [if_pos h, find?_map_replace, if_pos h]
    rfl
  · rw [if_neg h, List.find?_append, Option.not_isSome_iff_eq_none.mp h]
    simp

theorem alistGet_alistSet_ne {α : Type} (l : List (String × α)) (k k' : String)
    (v : α) (h : k' ≠ k) : alistGet (alistSet l k v) k' = alistGet l k' := by
  unfold alistGet alistSet
  by_cases hs : (l.find? (fun p => p.1 == k)).isSome
  · rw [if_pos hs, find?_map_replace_ne l k k' v h]
  · rw [if_neg hs, List.find?_append]
    have hnone : List.find? (fun p => p.1 == k') [(k, v)] = Option.none := by
      simp [Ne.symm h]
    rw [hnone, Option.or_none]

theorem alistSet_keep_value {α : Type} (l : List (String × α)) (k : String)
    (v : α) : ∀ p ∈ alistSet l k v, p.1 = k → p.2 = v := by
  intro p hp hpk
  unfold alistSet at hp
  by_cases hs : (l.find? (fun q => q.1 == k)).isSome
  · rw [if_pos hs] at hp
    rcases List.mem_map.mp hp with ⟨q, _, hq⟩
    by_cases hqk : q.1 = k
    · simp [hqk] at hq
      rw [← hq]
    · simp [hqk] at hq
      rw [← hq] at hpk
      exact absurd hpk hqk
  · rw [if_neg hs] at hp
    rcases List.mem_append.mp hp with hmem | hmem
    · exfalso
      exact hs (List.find?_isSome.mpr ⟨p, hmem, by simp [hpk]⟩)
    · simp at hmem
      rw [hmem]

theorem alistGet_alistRemove_self {α : Type} (l : List (String × α)) (k : String) :
    alistGet (alistRemove l k) k = Option.none := by
  unfold alistGet alistRemove
  induction l with
  | nil => simp
  | cons p t ih =>
      by_cases h : p.1 = k
      · simp [h]
      · rw [List.filter_cons, if_pos (by simp [h]),
            List.find?_cons_of_neg _ (by simp [h])]
        exact ih

theorem alistGet_isSome_any {α : Type} (l : List (String × α)) (k : String) :
    (alistGet l k).isSome = l.any (fun p => p.1 == k) := by
  unfold alistGet
  induction l with
  | nil => simp
  | cons p t ih =>
      by_cases h : p.1 = k
      · simp [h]
      · simp [h, ih]

/-! ### Supporting lemmas about the embedded operations -/

theorem set_flag_value_fst (st : StorageState) (flagName : String) (v : PyValue) :
    (st.set_flag_value flagName v).1 = { st with cache := alistSet st.cache flagName v } := by
  simp only [StorageState.set_flag_value]
  split <;> rfl

theorem set_flag_ok_eq (m : ManagerState) (st : StorageState) (flagName : String)
    (v : PyValue) (out : StorageState × FileState × List CallEvent)
    (h : set_flag m st flagName v = .ok out) :
    out = set_flag.setBody st flagName v := by
  unfold set_flag at h
  split at h
  · exact absurd h (by simp)
  · split at h
    · exact absurd h (by simp)
    · split at h
      · split at h
        · split at h
          · exact absurd h (by simp)
          · split at h
            · exact absurd h (by simp)
            · exact (Except.ok.inj h).symm
        · exact (Except.ok.inj h).symm
      · exact (Except.ok.inj h).symm

/-! ### Sample concrete states used by witnesses and counterexamples -/

/-- A declaration of flag `"f"` with local default `5`, as recorded by
`declare_flag` for the owning module. -/
def sampleDecl5 : FlagDeclaration :=
  { flagName := "f", permission := .OWNER_ONLY,
    default_value := .int 5, description := "d" }

/-- A manager for module `"A"` that has declared flag `"f"`. -/
def sampleManagerA : ManagerState :=
  { module_name := "A", declared_flags := [("f", sampleDecl5)] }

/-- A storage with an empty cache and one attached manager. -/
def emptyStorage : StorageState :=
  { cache := [], descriptions := [], ownership := [], observers := [],
    managerCount := 1, lastReload := 0, debounce := 1, watcherRunning := true }

/-- A storage whose cache holds `f = 1` and which has one registered observer
for `f`; the observer's callback raises when invoked. -/
def observedStorage : StorageState :=
  { cache := [("f", .int 1)], descriptions := [], ownership := [],
    observers := [("f", [{ id := 7, raises := true }])],
    managerCount := 1, lastReload := 0, debounce := 1, watcherRunning := true }

/-! ### Claim theorems -/

/-- C1 counterexample: module `A` declared flag `f` with local default `5`;
the store has no value for `f`.  The claim predicts `get(f, default=7) = 5`
(locally declared default over caller-supplied default), but `get_flag`
returns the caller-supplied `7`: the code evaluates
`declaration.default_value if default is None else default`. -/
theorem c1_get_flag_counterexample :
    get_flag sampleManagerA emptyStorage "f" (.int 7) = .ok (.int 7)
    ∧ PyValue.int 7 ≠ PyValue.int 5 := by
  exact ⟨rfl, by decide⟩

/-- C1 (amended): for a declared/used flag, `get_flag` returns the live store
value when it is present (non-`None`); otherwise the caller-supplied default
when that default is not `None`; otherwise the manager's locally declared
default — the caller-supplied default takes precedence over the locally
declared one. -/
theorem c1_get_flag_fallback (m : ManagerState) (st : StorageState)
    (flagName : String) (default : PyValue) (decl : FlagDeclaration)
    (hdecl : alistGet m.declared_flags flagName = some decl) :
    (st.get_flag_value flagName ≠ .none →
       get_flag m st flagName default = .ok (st.get_flag_value flagName))
    ∧ (st.get_flag_value flagName = .none → default ≠ .none →
       get_flag m st flagName default = .ok default)
    ∧ (st.get_flag_value flagName = .none → default = .none →
       get_flag m st flagName default = .ok decl.default_value) := by
  refine ⟨fun h1 => ?_, fun h1 h2 => ?_, fun h1 h2 => ?_⟩
  · simp [get_flag, hdecl, h1]
  · simp [get_flag, hdecl, h1, h2]
  · simp [get_flag, hdecl, h1, h2]

/-- C1 witness: with flag `f` declared at default `5` and an empty store,
`get_flag` returns the store value when present, the caller default `7` when
the store is empty, and the declared default `5` when the caller passes
`None`. -/
theorem c1_get_flag_fallback_witness :
    (emptyStorage.get_flag_value "f" = .none) ∧
    (get_flag sampleManagerA emptyStorage "f" (.int 7) = .ok (.int 7)) ∧
    (get_flag sampleManagerA emptyStorage "f" .none = .ok (.int 5)) := by
  refine ⟨by decide, ?_, ?_⟩
  · exact (c1_get_flag_fallback sampleManagerA emptyStorage "f" (.int 7) sampleDecl5
      (by decide)).2.1 (by decide) (by decide)
  · exact (c1_get_flag_fallback sampleManagerA emptyStorage "f" .none sampleDecl5
      (by decide)).2.2 (by decide) (by decide)

/-- C3: `use_flag` raises when no module has ever declared the flag (no
ownership record); raises immediately when the flag is `OWNER_ONLY` and the
caller is not the owner; and succeeds for the owner, recording a full
(owner-level) local declaration. -/
theorem c3_use_flag_spec (m : ManagerState) (st : StorageState) (flagName : String) :
    (st.get_ownership_info flagName = Option.none →
       ∃ msg, use_flag m st flagName = .error msg)
    ∧ (∀ ow, st.get_ownership_info flagName = some ow →
         ow.owner_module ≠ m.module_name → ow.access_permissions = .OWNER_ONLY →
         ∃ msg, use_flag m st flagName = .error msg)
    ∧ (∀ ow, st.get_ownership_info flagName = some ow →
         ow.owner_module = m.module_name →
         ∃ m', use_flag m st flagName = .ok m'
           ∧ alistGet m'.declared_flags flagName = some
               { flagName := flagName, permission := .OWNER_ONLY,
                 default_value := .none,
                 description := (alistGet st.descriptions flagName).getD "" }) := by
  refine ⟨fun h => ?_, fun ow how hne hperm => ?_, fun ow how howner => ?_⟩
  · exact ⟨"Flag " ++ flagName ++ " does not exist or has not been declared",
      by simp [use_flag, h]⟩
  · exact ⟨"Flag " ++ flagName ++ " is owned with OWNER_ONLY access",
      by simp [use_flag, how, hne, hperm]⟩
  · refine ⟨use_flag.useRecord m st flagName .OWNER_ONLY, by simp [use_flag, how, howner], ?_⟩
    simp only [use_flag.useRecord]
    exact alistGet_alistSet_self _ _ _

/-- C5: with exactly one observer callback registered for the flag,
`set_flag_value f v2` invokes it exactly once with `(f, v1, v2)` when
`v1 != v2` (Python equality), and zero times when `v1 == v2`; the invocation
trace is part of `set_flag_value`'s return value, so delivery is synchronous,
and the callback's `raises` flag is unconstrained while the cache update
always completes — the try/except around the callback never propagates. -/
theorem c5_set_flag_value_observer (st : StorageState) (flagName : String)
    (cb : Callback) (v2 : PyValue)
    (hobs : alistGet st.observers flagName = some [cb]) :
    (pyEq (st.get_flag_value flagName) v2 = false →
       (st.set_flag_value flagName v2).2 =
         [{ cbId := cb.id, flagName := flagName,
            oldValue := st.get_flag_value flagName, newValue := v2 }])
    ∧ (pyEq (st.get_flag_value flagName) v2 = true →
       (st.set_flag_value flagName v2).2 = [])
    ∧ (st.set_flag_value flagName v2).1
        = { st with cache := alistSet st.cache flagName v2 } := by
  refine ⟨fun h => ?_, fun h => ?_, set_flag_value_fst st flagName v2⟩
  · simp only [StorageState.set_flag_value, StorageState.get_flag_value] at h ⊢
    rw [if_neg (by simp [h])]
    simp only [notifyObserver, hobs, List.map_cons, List.map_nil]
  · simp only [StorageState.set_flag_value, StorageState.get_flag_value] at h ⊢
    rw [if_pos (by simp [h])]

/-- C5 witness: the cache holds `f = 1`; an observer (whose callback raises)
receives exactly one call `(f, 1, 2)` on `set(f, 2)`, and no call on
`set(f, 1)`. -/
theorem c5_set_flag_value_observer_witness :
    (observedStorage.set_flag_value "f" (.int 2)).2 =
       [{ cbId := 7, flagName := "f", oldValue := .int 1, newValue := .int 2 }]
    ∧ (observedStorage.set_flag_value "f" (.int 1)).2 = [] := by
  constructor
  · exact (c5_set_flag_value_observer observedStorage "f"
      { id := 7, raises := true } (.int 2) (by decide)).1 (by decide)
  · exact (c5_set_flag_value_observer observedStorage "f"
      { id := 7, raises := true } (.int 1) (by decide)).2.1 (by decide)

/-- A storage holding one flag with description and ownership, used to
exercise reload behaviour. -/
def populatedStorage : StorageState :=
  { cache := [("f", .int 1)], descriptions := [("f", "d")],
    ownership := [("f", { owner_module := "A", access_permissions := .READ_WRITE })],
    observers := [], managerCount := 1, lastReload := 0, debounce := 1,
    watcherRunning := true }

/-- C6 counterexample: reloading `populatedStorage` (cache `f = 1`) with the
config file absent does **not** reset the in-memory state: `_reload_config`
returns as soon as `self.config_path.exists()` is false, leaving cache,
descriptions and ownership untouched, where the claim predicts they become
empty. -/
theorem c6_reload_absent_counterexample :
    (reload_config populatedStorage .absent 5).1.cache = [("f", PyValue.int 1)]
    ∧ (reload_config populatedStorage .absent 5).1.cache ≠ []
    ∧ (reload_config populatedStorage .absent 5).1.descriptions ≠ []
    ∧ (reload_config populatedStorage .absent 5).1.ownership ≠ [] := by
  refine ⟨rfl, by decide, by decide, by decide⟩

/-- C6 (amended): past the debounce window, a reload against an **absent**
file only advances the debounce timestamp, leaving cache, descriptions and
ownership unchanged; a reload of a file that parses as JSON but has no
top-level `flags` map resets all three to empty. -/
theorem c6_reload_absent_vs_noFlags (st : StorageState) (now : Nat)
    (hdeb : st.debounce ≤ now - st.lastReload) :
    reload_config st .absent now = ({ st with lastReload := now }, [])
    ∧ (reload_config st .noFlags now).1.cache = []
    ∧ (reload_config st .noFlags now).1.descriptions = []
    ∧ (reload_config st .noFlags now).1.ownership = [] := by
  unfold reload_config
  simp only [if_neg (Nat.not_lt.mpr hdeb)]
  exact ⟨trivial, trivial, trivial, trivial⟩

/-- C6 witness: at time `5`, past `populatedStorage`'s debounce window of `1`,
an absent-file reload keeps the state (timestamp aside) and a no-`flags`
reload empties it. -/
theorem c6_reload_absent_vs_noFlags_witness :
    reload_config populatedStorage .absent 5
        = ({ populatedStorage with lastReload := 5 }, [])
    ∧ (reload_config populatedStorage .noFlags 5).1.cache = []
    ∧ (reload_config populatedStorage .noFlags 5).1.descriptions = []
    ∧ (reload_config populatedStorage .noFlags 5).1.ownership = [] := by
  exact c6_reload_absent_vs_noFlags populatedStorage 5 (by decide)

/-- C7: past the debounce window, a reload against a **corrupt** (unparseable)
file is absorbed by the try/except: only the debounce timestamp advances, no
observers fire, and a subsequent `get_flag` on a flag the manager already
declared returns exactly what it returned before the corruption — an `ok`
value, never an error. -/
theorem c7_reload_corrupt_resilient (st : StorageState) (now : Nat)
    (hdeb : st.debounce ≤ now - st.lastReload) :
    reload_config st .corrupt now = ({ st with lastReload := now }, [])
    ∧ (∀ (m : ManagerState) (flagName : String) (decl : FlagDeclaration)
         (default : PyValue),
         alistGet m.declared_flags flagName = some decl →
         get_flag m (reload_config st .corrupt now).1 flagName default
             = get_flag m st flagName default
         ∧ ∃ v, get_flag m (reload_config st .corrupt now).1 flagName default
             = .ok v) := by
  have hre : reload_config st .corrupt now = ({ st with lastReload := now }, []) := by
    unfold reload_config
    rw [if_neg (Nat.not_lt.mpr hdeb)]
  refine ⟨hre, fun m flagName decl default hdecl => ⟨?_, ?_⟩⟩
  · rw [hre]
    simp only [get_flag, hdecl, StorageState.get_flag_value]
  · rw [hre]
    simp only [get_flag, hdecl]
    exact ⟨_, rfl⟩

/-- C7 witness: corrupting the file under `populatedStorage` at time `5` keeps
the cache, and module `A`'s `get` on its declared flag `f` still returns the
last good value `1`. -/
theorem c7_reload_corrupt_resilient_witness :
    reload_config populatedStorage .corrupt 5
        = ({ populatedStorage with lastReload := 5 }, [])
    ∧ get_flag sampleManagerA (reload_config populatedStorage .corrupt 5).1 "f" .none
        = get_flag sampleManagerA populatedStorage "f" .none
    ∧ get_flag sampleManagerA (reload_config populatedStorage .corrupt 5).1 "f" .none
        = .ok (.int 1) := by
  have h := c7_reload_corrupt_resilient populatedStorage 5 (by decide)
  refine ⟨h.1, (h.2 sampleManagerA "f" sampleDecl5 .none (by decide)).1, ?_⟩
  rw [(h.2 sampleManagerA "f" sampleDecl5 .none (by decide)).1]
  rfl

/-- C2: for a flag owned by module `A` with `READ_ONLY` access for others, a
manager of any other module can `use` it, its `get` succeeds (returning the
live store value whenever one is present), and its `set` fails with a
`PermissionError` for every value — and, since the permission check precedes
the mutation in the source, the store is untouched on that path. -/
theorem c2_readonly_get_yes_set_no (A : String) (st : StorageState)
    (flagName : String) (mB : ManagerState)
    (how : st.get_ownership_info flagName =
      some { owner_module := A, access_permissions := .READ_ONLY })
    (hne : mB.module_name ≠ A) :
    ∃ mB', use_flag mB st flagName = .ok mB'
      ∧ (∃ v, get_flag mB' st flagName .none = .ok v)
      ∧ (st.get_flag_value flagName ≠ .none →
          get_flag mB' st flagName .none = .ok (st.get_flag_value flagName))
      ∧ (∀ v, ∃ msg, set_flag mB' st flagName v = .error msg) := by
  have huse : use_flag mB st flagName
      = .ok (use_flag.useRecord mB st flagName .READ_ONLY) := by
    simp [use_flag, how, Ne.symm hne]
  have hdecl : alistGet (use_flag.useRecord mB st flagName .READ_ONLY).declared_flags
      flagName = some
        { flagName := flagName, permission := .READ_ONLY, default_value := .none,
          description := (alistGet st.descriptions flagName).getD "" } := by
    simp only [use_flag.useRecord]
    exact alistGet_alistSet_self _ _ _
  refine ⟨use_flag.useRecord mB st flagName .READ_ONLY, huse, ?_, ?_, ?_⟩
  · simp only [get_flag, hdecl]
    exact ⟨_, rfl⟩
  · intro hv
    simp [get_flag, hdecl, hv]
  · intro v
    refine ⟨"Module " ++ mB.module_name ++ " has read-only access", ?_⟩
    simp [set_flag, use_flag.useRecord, alistGet_alistSet_self]

/-- A storage where `"f"` is owned by module `"A"` with `READ_ONLY` access for
other modules and the cached value is `1`. -/
def readonlyStorage : StorageState :=
  { cache := [("f", .int 1)], descriptions := [("f", "d")],
    ownership := [("f", { owner_module := "A", access_permissions := .READ_ONLY })],
    observers := [], managerCount := 2, lastReload := 0, debounce := 1,
    watcherRunning := true }

/-- A manager for module `"B"` that has not declared or used anything yet. -/
def managerB : ManagerState := { module_name := "B", declared_flags := [] }

/-- C2 witness: module `"B"` uses the `READ_ONLY` flag `"f"` owned by `"A"`
on `readonlyStorage`: `use` and `get` succeed, `set` errors. -/
theorem c2_readonly_get_yes_set_no_witness :
    ∃ mB', use_flag managerB readonlyStorage "f" = .ok mB'
      ∧ (∃ v, get_flag mB' readonlyStorage "f" .none = .ok v)
      ∧ (readonlyStorage.get_flag_value "f" ≠ .none →
          get_flag mB' readonlyStorage "f" .none
            = .ok (readonlyStorage.get_flag_value "f"))
      ∧ (∀ v, ∃ msg, set_flag mB' readonlyStorage "f" v = .error msg) :=
  c2_readonly_get_yes_set_no "A" readonlyStorage "f" managerB (by decide) (by decide)

/-- A manager for module `"A"` that has not declared anything yet. -/
def c4Manager0 : ManagerState := { module_name := "A", declared_flags := [] }

/-- Module `"A"`'s manager after declaring `"f"` with default `1`. -/
def c4Manager1 : ManagerState :=
  { module_name := "A", declared_flags :=
      [("f", { flagName := "f", permission := .OWNER_ONLY,
               default_value := .int 1, description := "d" })] }

/-- Module `"A"`'s manager after re-declaring `"f"` with default `2`. -/
def c4Manager2 : ManagerState :=
  { module_name := "A", declared_flags :=
      [("f", { flagName := "f", permission := .OWNER_ONLY,
               default_value := .int 2, description := "d" })] }

/-- The storage after `declare_flag "f" READ_WRITE 1`. -/
def c4StorageA : StorageState :=
  { cache := [("f", .int 1)], descriptions := [("f", "d")],
    ownership := [("f", { owner_module := "A", access_permissions := .READ_WRITE })],
    observers := [], managerCount := 1, lastReload := 0, debounce := 1,
    watcherRunning := true }

/-- The storage after the owner then runs `set_flag "f" None`. -/
def c4StorageB : StorageState :=
  { c4StorageA with cache := [("f", .none)] }

/-- The storage after the owner re-declares `"f"` with default `2`. -/
def c4StorageC : StorageState :=
  { c4StorageA with cache := [("f", .int 2)] }

/-- C4 counterexample: module `A` declares `f` (default `1`), then sets the
flag's stored value to `None`, then re-declares `f` with new default `2`.
The claim says the second declare must not overwrite the already-set stored
value; but because `declare_flag` seeds whenever `get_flag_value` `is None`,
and a stored null is returned as `None`, the stored value is replaced by the
new default `2`. -/
theorem c4_redeclare_counterexample :
    declare_flag c4Manager0 emptyStorage "f" .READ_WRITE (.int 1) "d"
      = .ok (c4Manager1, c4StorageA, persist_config c4StorageA, [])
    ∧ set_flag c4Manager1 c4StorageA "f" .none
      = .ok (c4StorageB, persist_config c4StorageB, [])
    ∧ alistGet c4StorageB.cache "f" = some .none
    ∧ declare_flag c4Manager1 c4StorageB "f" .READ_WRITE (.int 2) "d"
      = .ok (c4Manager2, c4StorageC, persist_config c4StorageC, [])
    ∧ c4StorageC.get_flag_value "f" = .int 2
    ∧ PyValue.int 2 ≠ PyValue.none := by
  exact ⟨rfl, rfl, rfl, rfl, rfl, by decide⟩

/-- C4 (amended): when the flag's stored value is **non-null**, a second
`declare_flag` by the owning module does not raise and leaves the stored value
unchanged; a `declare_flag` by any module other than the current owner raises
an ownership-conflict `PermissionError`. -/
theorem c4_declare_idempotent_for_owner (m : ManagerState) (st : StorageState)
    (flagName : String) (ow : FlagOwnership)
    (how : st.get_ownership_info flagName = some ow)
    (howner : ow.owner_module = m.module_name)
    (hv : st.get_flag_value flagName ≠ .none)
    (perms : PermissionLevel) (newDefault : PyValue) (desc : String) :
    (∃ m' st' file ev,
       declare_flag m st flagName perms newDefault desc = .ok (m', st', file, ev)
       ∧ st'.get_flag_value flagName = st.get_flag_value flagName
       ∧ st'.cache = st.cache)
    ∧ (∀ m2 : ManagerState, m2.module_name ≠ m.module_name →
       ∃ msg, declare_flag m2 st flagName perms newDefault desc = .error msg) := by
  constructor
  · have hv' : ¬((st.set_ownership_info flagName
        { owner_module := m.module_name, access_permissions := perms }).get_flag_value
          flagName = .none) := hv
    simp only [declare_flag, how]
    rw [if_neg (by simp [howner])]
    simp only [declare_flag.declareBody]
    rw [if_neg hv']
    exact ⟨_, _, _, _, rfl, rfl, rfl⟩
  · intro m2 hm2
    have hown : ow.owner_module ≠ m2.module_name := by
      rw [howner]; exact Ne.symm hm2
    refine ⟨"Flag is already owned by module " ++ ow.owner_module, ?_⟩
    simp only [declare_flag, how]
    rw [if_pos hown]

/-- C4 witness: on `c4StorageA` (stored value `1`, owned by `"A"`), a second
declare by `"A"` with default `2` succeeds and keeps the stored `1`, while a
declare by `"B"` errors. -/
theorem c4_declare_idempotent_for_owner_witness :
    (∃ m' st' file ev,
       declare_flag c4Manager1 c4StorageA "f" .READ_WRITE (.int 2) "d"
           = .ok (m', st', file, ev)
       ∧ st'.get_flag_value "f" = c4StorageA.get_flag_value "f"
       ∧ st'.cache = c4StorageA.cache)
    ∧ (∀ m2 : ManagerState, m2.module_name ≠ c4Manager1.module_name →
       ∃ msg, declare_flag m2 c4StorageA "f" .READ_WRITE (.int 2) "d"
           = .error msg) :=
  c4_declare_idempotent_for_owner c4Manager1 c4StorageA "f"
    { owner_module := "A", access_permissions := .READ_WRITE }
    (by decide) (by decide) (by decide) .READ_WRITE (.int 2) "d"

/-- A global registry holding `populatedStorage` (use-count `1`) at path
`"p"`. -/
def c8Registry : GlobalRegistry := { storages := [("p", populatedStorage)] }

/-- C8 counterexample: dropping the last manager of the storage registered at
`"p"` stops the watcher, but the storage is **not** removed from the global
path-to-store registry: `get_shared_storage` afterwards returns the very same
shut-down instance (watcher stopped, old cache intact), not a fresh store. -/
theorem c8_registry_counterexample :
    (StorageState.remove_manager populatedStorage).watcherRunning = false
    ∧ alistGet (registry_remove_manager c8Registry "p").storages "p"
        = some (StorageState.remove_manager populatedStorage)
    ∧ (get_shared_storage (registry_remove_manager c8Registry "p") "p" 1 .absent 5).2
        = StorageState.remove_manager populatedStorage
    ∧ (get_shared_storage (registry_remove_manager c8Registry "p") "p" 1 .absent 5).2
        ≠ freshStorage 1 .absent 5 := by
  exact ⟨rfl, rfl, rfl, by decide⟩

/-- C8 (amended): `add_manager`/`remove_manager` increment/decrement the
use-count, and when the count reaches zero the watcher is stopped — but the
store is **not** released from the global registry: the registry still maps
the path to the same (shut-down) instance and a later `get_shared_storage`
on that path returns it instead of constructing a fresh store. -/
theorem c8_refcount_shutdown (g : GlobalRegistry) (path : String)
    (st : StorageState) (hreg : alistGet g.storages path = some st) :
    st.add_manager.managerCount = st.managerCount + 1
    ∧ st.remove_manager.managerCount = st.managerCount - 1
    ∧ (st.managerCount ≤ 1 → st.remove_manager.watcherRunning = false)
    ∧ alistGet (registry_remove_manager g path).storages path
        = some st.remove_manager
    ∧ (∀ debounce file now,
        (get_shared_storage (registry_remove_manager g path) path debounce file now).2
          = st.remove_manager) := by
  have hrm : alistGet (registry_remove_manager g path).storages path
      = some st.remove_manager := by
    simp only [registry_remove_manager, hreg]
    exact alistGet_alistSet_self _ _ _
  refine ⟨rfl, ?_, fun hc => ?_, hrm, fun debounce file now => ?_⟩
  · simp only [StorageState.remove_manager, StorageState.shutdown]
    split <;> rfl
  · simp only [StorageState.remove_manager]
    rw [if_pos (by omega)]
    rfl
  · simp only [get_shared_storage, hrm]

/-- C8 witness: the registry holding `populatedStorage` at `"p"`, whose last
manager detaches. -/
theorem c8_refcount_shutdown_witness :
    populatedStorage.add_manager.managerCount = populatedStorage.managerCount + 1
    ∧ populatedStorage.remove_manager.managerCount
        = populatedStorage.managerCount - 1
    ∧ (populatedStorage.managerCount ≤ 1 →
        populatedStorage.remove_manager.watcherRunning = false)
    ∧ alistGet (registry_remove_manager c8Registry "p").storages "p"
        = some populatedStorage.remove_manager
    ∧ (∀ debounce file now,
        (get_shared_storage (registry_remove_manager c8Registry "p") "p"
            debounce file now).2 = populatedStorage.remove_manager) :=
  c8_refcount_shutdown c8Registry "p" populatedStorage (by decide)

/-- A storage whose stored value for flag `"f"` is a Python `None` (null in
the JSON file), owned by module `"A"`. -/
def nullValueStorage : StorageState :=
  { cache := [("f", .none)], descriptions := [("f", "d")],
    ownership := [("f", { owner_module := "A", access_permissions := .READ_WRITE })],
    observers := [], managerCount := 1, lastReload := 0, debounce := 1,
    watcherRunning := true }

/-- C10: a stored null is indistinguishable from an absent flag: for a
declared/used flag whose store value is `None`, `get_flag` resolves to the
default chain (caller default, else the local declared default) exactly as it
does when the flag is deleted from the cache; and a subsequent `declare_flag`
by the owner re-seeds the store, overwriting the stored `None` with the
declaration's default value. -/
theorem c10_stored_null_behaviour (m : ManagerState) (st : StorageState)
    (flagName : String) (decl : FlagDeclaration) (default : PyValue)
    (hdecl : alistGet m.declared_flags flagName = some decl)
    (hnull : alistGet st.cache flagName = some .none) :
    (get_flag m st flagName default
       = .ok (if default = .none then decl.default_value else default))
    ∧ (get_flag m st flagName default
       = get_flag m { st with cache := alistRemove st.cache flagName } flagName default)
    ∧ (∀ ow, st.get_ownership_info flagName = some ow →
        ow.owner_module = m.module_name →
        ∀ (perms : PermissionLevel) (newDefault : PyValue) (desc : String),
        ∃ m' st' file ev,
          declare_flag m st flagName perms newDefault desc = .ok (m', st', file, ev)
          ∧ alistGet st'.cache flagName = some newDefault) := by
  refine ⟨?_, ?_, fun ow how howner perms newDefault desc => ?_⟩
  · simp [get_flag, hdecl, StorageState.get_flag_value, hnull]
  · simp [get_flag, hdecl, StorageState.get_flag_value, hnull,
      alistGet_alistRemove_self]
  · have hcond : (st.set_ownership_info flagName
        { owner_module := m.module_name, access_permissions := perms }).get_flag_value
          flagName = .none := by
      simp [StorageState.set_ownership_info, StorageState.get_flag_value, hnull]
    simp only [declare_flag, how]
    rw [if_neg (by simp [howner])]
    simp only [declare_flag.declareBody]
    rw [if_pos hcond]
    refine ⟨_, _, _, _, rfl, ?_⟩
    simp only [StorageState.set_flag_description, set_flag_value_fst]
    exact alistGet_alistSet_self _ _ _

/-- C10 witness: on `nullValueStorage` (stored `f = None`, owner `"A"`), the
owner's `get` with caller default `7` returns `7`, equals the absent-flag
behaviour, and re-declaring with default `2` overwrites the stored null. -/
theorem c10_stored_null_behaviour_witness :
    (get_flag c4Manager1 nullValueStorage "f" (.int 7)
       = .ok (if (PyValue.int 7) = .none then
           (({ flagName := "f", permission := .OWNER_ONLY, default_value := .int 1,
               description := "d" } : FlagDeclaration)).default_value
         else .int 7))
    ∧ (get_flag c4Manager1 nullValueStorage "f" (.int 7)
       = get_flag c4Manager1
           { nullValueStorage with cache := alistRemove nullValueStorage.cache "f" }
           "f" (.int 7))
    ∧ (∀ ow, nullValueStorage.get_ownership_info "f" = some ow →
        ow.owner_module = c4Manager1.module_name →
        ∀ (perms : PermissionLevel) (newDefault : PyValue) (desc : String),
        ∃ m' st' file ev,
          declare_flag c4Manager1 nullValueStorage "f" perms newDefault desc
            = .ok (m', st', file, ev)
          ∧ alistGet st'.cache "f" = some newDefault) :=
  c10_stored_null_behaviour c4Manager1 nullValueStorage "f"
    { flagName := "f", permission := .OWNER_ONLY, default_value := .int 1,
      description := "d" }
    (.int 7) (by decide) (by decide)

/-! ### Round-trip lemmas: reloading what `write_config` wrote -/

theorem loadFold_cache_get (name : String) (v : PyValue) (dsc : Option String)
    (ow : Option FlagOwnership) :
    ∀ (entries : List (String × FileFlagData))
      (acc : List (String × PyValue) × List (String × String) ×
             List (String × FlagOwnership)),
      (∀ p ∈ entries, p.1 = name →
        p.2 = .entry { value := v, description := dsc, ownership := ow }) →
      alistGet (entries.foldl loadEntry acc).1 name =
        (if entries.any (fun p => p.1 == name) then some v
         else alistGet acc.1 name) := by
  intro entries
  induction entries with
  | nil => intro acc _; simp
  | cons p t ih =>
      intro acc hall
      have htail : ∀ q ∈ t, q.1 = name →
          q.2 = .entry { value := v, description := dsc, ownership := ow } :=
        fun q hq => hall q (List.mem_cons_of_mem _ hq)
      rw [List.foldl_cons, ih _ htail]
      by_cases hp : p.1 = name
      · have hpd := hall p (List.mem_cons_self _ _) hp
        by_cases ht : t.any (fun q => q.1 == name) = true
        · rw [if_pos ht, if_pos (by simp [hp])]
        · rw [if_neg ht, if_pos (by simp [hp])]
          simp only [loadEntry, hpd]
          rw [hp]
          exact alistGet_alistSet_self _ _ _
      · have hkeep : alistGet (loadEntry acc p).1 name = alistGet acc.1 name := by
          cases hd : p.2 with
          | entry e =>
              simp only [loadEntry, hd]
              exact alistGet_alistSet_ne _ _ _ _ (fun he => hp he.symm)
          | bare w =>
              simp only [loadEntry, hd]
              exact alistGet_alistSet_ne _ _ _ _ (fun he => hp he.symm)
        rw [hkeep]
        have hfalse : (p.1 == name) = false := by simp [hp]
        rw [List.any_cons, hfalse, Bool.false_or]

theorem loadFold_own_get (name : String) (v : PyValue) (dsc : Option String)
    (o : FlagOwnership) :
    ∀ (entries : List (String × FileFlagData))
      (acc : List (String × PyValue) × List (String × String) ×
             List (String × FlagOwnership)),
      (∀ p ∈ entries, p.1 = name →
        p.2 = .entry { value := v, description := dsc, ownership := some o }) →
      alistGet (entries.foldl loadEntry acc).2.2 name =
        (if entries.any (fun p => p.1 == name) then some o
         else alistGet acc.2.2 name) := by
  intro entries
  induction entries with
  | nil => intro acc _; simp
  | cons p t ih =>
      intro acc hall
      have htail : ∀ q ∈ t, q.1 = name →
          q.2 = .entry { value := v, description := dsc, ownership := some o } :=
        fun q hq => hall q (List.mem_cons_of_mem _ hq)
      rw [List.foldl_cons, ih _ htail]
      by_cases hp : p.1 = name
      · have hpd := hall p (List.mem_cons_self _ _) hp
        by_cases ht : t.any (fun q => q.1 == name) = true
        · rw [if_pos ht, if_pos (by simp [hp])]
        · rw [if_neg ht, if_pos (by simp [hp])]
          simp only [loadEntry, hpd]
          rw [hp]
          exact alistGet_alistSet_self _ _ _
      · have hkeep : alistGet (loadEntry acc p).2.2 name = alistGet acc.2.2 name := by
          cases hd : p.2 with
          | entry e =>
              cases ho : e.ownership with
              | some w =>
                  simp only [loadEntry, hd, ho]
                  exact alistGet_alistSet_ne _ _ _ _ (fun he => hp he.symm)
              | none => simp only [loadEntry, hd, ho]
          | bare w => simp only [loadEntry, hd]
        rw [hkeep]
        have hfalse : (p.1 == name) = false := by simp [hp]
        rw [List.any_cons, hfalse, Bool.false_or]

theorem writeEntries_all (flags : List (String × PyValue))
    (descriptions : List (String × String))
    (ownership_info : List (String × FlagOwnership)) (name : String) (v : PyValue)
    (hall : ∀ q ∈ flags, q.1 = name → q.2 = v) :
    ∀ p ∈ writeEntries flags descriptions ownership_info, p.1 = name →
      p.2 = .entry { value := v,
                     description :=
                       (match alistGet descriptions name with
                        | some d => if d = "" then Option.none else some d
                        | Option.none => Option.none),
                     ownership := alistGet ownership_info name } := by
  intro p hp hpf
  obtain ⟨q, hq, hmap⟩ := List.mem_map.mp hp
  rw [← hmap] at hpf ⊢
  dsimp at hpf ⊢
  rw [hpf, hall q hq hpf]

theorem writeEntries_any (flags : List (String × PyValue))
    (descriptions : List (String × String))
    (ownership_info : List (String × FlagOwnership)) (name : String) :
    (writeEntries flags descriptions ownership_info).any (fun p => p.1 == name)
      = flags.any (fun q => q.1 == name) := by
  unfold writeEntries
  induction flags with
  | nil => rfl
  | cons q t ih => rw [List.map_cons, List.any_cons, List.any_cons, ih]

theorem freshStorage_withFlags (debounce : Nat)
    (entries : List (String × FileFlagData)) (now : Nat) (hdeb : debounce ≤ now) :
    freshStorage debounce (.withFlags entries) now =
      { cache := (loadFlags entries).1, descriptions := (loadFlags entries).2.1,
        ownership := (loadFlags entries).2.2, observers := [], managerCount := 0,
        lastReload := now, debounce := debounce, watcherRunning := true } := by
  simp only [freshStorage, reload_config]
  rw [if_neg (by omega)]

/-- C9: round-trip persistence.  A successful `set_flag` writes the full
config file; a brand-new storage built on that file (its initial reload past
the debounce window), asked through a brand-new manager that `use`s the flag
(possible whenever the recorded ownership grants it access) and then `get`s
it, yields the very value that was set. -/
theorem c9_round_trip (m : ManagerState) (st : StorageState) (flagName : String)
    (v : PyValue) (out : StorageState × FileState × List CallEvent)
    (ow : FlagOwnership) (mB : ManagerState) (debounce now : Nat)
    (hset : set_flag m st flagName v = .ok out)
    (how : alistGet st.ownership flagName = some ow)
    (hdeb : debounce ≤ now)
    (hB : mB.module_name = ow.owner_module ∨ ow.access_permissions ≠ .OWNER_ONLY) :
    ∃ mB', use_flag mB (freshStorage debounce out.2.1 now) flagName = .ok mB'
      ∧ get_flag mB' (freshStorage debounce out.2.1 now) flagName .none = .ok v := by
  have hout := set_flag_ok_eq m st flagName v out hset
  have hfile : out.2.1 = .withFlags (writeEntries (alistSet st.cache flagName v)
      st.descriptions st.ownership) := by
    rw [hout]
    simp only [set_flag.setBody, set_flag_value_fst, persist_config, write_config]
  rw [hfile]
  have hall := writeEntries_all (alistSet st.cache flagName v) st.descriptions
    st.ownership flagName v (alistSet_keep_value st.cache flagName v)
  rw [how] at hall
  have hany : (writeEntries (alistSet st.cache flagName v) st.descriptions
      st.ownership).any (fun p => p.1 == flagName) = true := by
    rw [writeEntries_any, ← alistGet_isSome_any, alistGet_alistSet_self]
    rfl
  have hfresh := freshStorage_withFlags debounce
    (writeEntries (alistSet st.cache flagName v) st.descriptions st.ownership)
    now hdeb
  have hc : alistGet (freshStorage debounce (.withFlags (writeEntries
      (alistSet st.cache flagName v) st.descriptions st.ownership)) now).cache
      flagName = some v := by
    rw [hfresh]
    show alistGet (loadFlags _).1 flagName = some v
    unfold loadFlags
    rw [loadFold_cache_get flagName v _ _ _ ([], [], []) hall, if_pos hany]
  have ho : alistGet (freshStorage debounce (.withFlags (writeEntries
      (alistSet st.cache flagName v) st.descriptions st.ownership)) now).ownership
      flagName = some ow := by
    rw [hfresh]
    show alistGet (loadFlags _).2.2 flagName = some ow
    unfold loadFlags
    rw [loadFold_own_get flagName v _ ow _ ([], [], []) hall, if_pos hany]
  have hget : ∀ P : PermissionLevel,
      get_flag (use_flag.useRecord mB (freshStorage debounce (.withFlags
          (writeEntries (alistSet st.cache flagName v) st.descriptions
            st.ownership)) now) flagName P)
        (freshStorage debounce (.withFlags (writeEntries
          (alistSet st.cache flagName v) st.descriptions st.ownership)) now)
        flagName .none = .ok v := by
    intro P
    have hdecl : alistGet (use_flag.useRecord mB (freshStorage debounce
        (.withFlags (writeEntries (alistSet st.cache flagName v) st.descriptions
          st.ownership)) now) flagName P).declared_flags flagName
        = some { flagName := flagName, permission := P, default_value := .none,
                 description := (alistGet (freshStorage debounce (.withFlags
                   (writeEntries (alistSet st.cache flagName v) st.descriptions
                     st.ownership)) now).descriptions flagName).getD "" } := by
      simp only [use_flag.useRecord]
      exact alistGet_alistSet_self _ _ _
    simp only [get_flag, hdecl, StorageState.get_flag_value, hc]
    by_cases hv : v = .none
    · simp [hv]
    · simp [hv]
  by_cases hw : ow.owner_module = mB.module_name
  · refine ⟨_, ?_, hget .OWNER_ONLY⟩
    simp only [use_flag, StorageState.get_ownership_info, ho]
    rw [if_pos hw]
  · have hacc : ow.access_permissions ≠ .OWNER_ONLY := by
      cases hB with
      | inl h => exact absurd h.symm hw
      | inr h => exact h
    refine ⟨_, ?_, hget ow.access_permissions⟩
    simp only [use_flag, StorageState.get_ownership_info, ho]
    rw [if_neg hw, if_neg hacc]

/-- The storage after module `"A"` runs `set_flag "f" 3` on `c4StorageA`. -/
def c9Storage3 : StorageState := { c4StorageA with cache := [("f", .int 3)] }

/-- C9 witness: `"A"` sets `f = 3` (persisting the file); a fresh storage
built from that file at time `5` lets the brand-new module `"B"` `use` and
`get` the flag, returning `3`. -/
theorem c9_round_trip_witness :
    ∃ mB', use_flag managerB (freshStorage 1 (persist_config c9Storage3) 5) "f"
        = .ok mB'
      ∧ get_flag mB' (freshStorage 1 (persist_config c9Storage3) 5) "f" .none
          = .ok (.int 3) :=
  c9_round_trip c4Manager1 c4StorageA "f" (.int 3)
    (c9Storage3, persist_config c9Storage3, [])
    { owner_module := "A", access_permissions := .READ_WRITE } managerB 1 5
    rfl (by decide) (by decide) (Or.inr (by decide))

end TwitchBots
